import Mathlib

/-!
Verification of the storage-dispatch LP builder in `opt_func.py`.

The Python source builds a pyomo linear program from a price series and a
storage-parameter dictionary, hands it to an external HiGHS solver, and reads
the solved variable values back into a per-step schedule.  We embed the LP
construction shallowly: decision variables become an inductive index type,
pyomo expressions become explicit linear expressions over ℚ, the pyomo model
becomes a record of variable bounds, equality constraints and an objective,
and the external solver becomes a function parameter (the code treats it as a
black box).  Python floats are modelled as exact rationals (0.95 = 19/20).
-/

/-- Storage-parameter set, mirroring the `storage_params` dictionary keys in
`opt_func.py`. -/
structure StorageParams where
  capacity : ℚ
  p_max : ℚ
  eff_ch : ℚ
  eff_dis : ℚ
  soc_init : ℚ
deriving DecidableEq, Repr

/-- The decision variables of the LP: for each time step `t`, charge power
`P_ch[t]`, discharge power `P_dis[t]` and stored energy `E[t]`
(`model.P_ch`, `model.P_dis`, `model.E` in the source). -/
inductive LPVar where
  | P_ch (t : ℕ)
  | P_dis (t : ℕ)
  | E (t : ℕ)
deriving DecidableEq, Repr

/-- The time step a decision variable belongs to. -/
def LPVar.time : LPVar → ℕ
  | .P_ch t => t
  | .P_dis t => t
  | .E t => t

/-- A linear expression: a constant plus a list of (coefficient, variable)
terms.  This is the explicit form of the pyomo expressions the source builds
symbolically. -/
structure LinExpr where
  const : ℚ
  terms : List (ℚ × LPVar)
deriving DecidableEq, Repr

/-- Value of a linear expression under an assignment of the variables. -/
def LinExpr.eval (e : LinExpr) (x : LPVar → ℚ) : ℚ :=
  e.const + (e.terms.map (fun c => c.1 * x c.2)).sum

/-- Variables occurring in a linear expression. -/
def LinExpr.varsOf (e : LinExpr) : List LPVar :=
  e.terms.map (fun c => c.2)

/-- An equality constraint `lhs == rhs` between two linear expressions. -/
structure LinEq where
  lhs : LinExpr
  rhs : LinExpr
deriving DecidableEq, Repr

/-- An assignment satisfies an equality constraint. -/
def LinEq.Holds (c : LinEq) (x : LPVar → ℚ) : Prop :=
  c.lhs.eval x = c.rhs.eval x

instance (c : LinEq) (x : LPVar → ℚ) : Decidable (c.Holds x) := by
  unfold LinEq.Holds
  exact inferInstance

/-- Variables occurring in an equality constraint. -/
def LinEq.varsOf (c : LinEq) : List LPVar :=
  c.lhs.varsOf ++ c.rhs.varsOf

/-- A variable declaration with its bounds, mirroring a
`pyo.Var(..., bounds=(lo, hi))` entry for one index.  Each declaration
constrains exactly the single variable `var`. -/
structure VarDecl where
  var : LPVar
  lb : ℚ
  ub : ℚ
deriving DecidableEq, Repr

/-- An assignment respects a variable's declared bounds. -/
def VarDecl.Holds (d : VarDecl) (x : LPVar → ℚ) : Prop :=
  d.lb ≤ x d.var ∧ d.ub ≥ x d.var

instance (d : VarDecl) (x : LPVar → ℚ) : Decidable (d.Holds x) := by
  unfold VarDecl.Holds
  exact inferInstance

/-- The built LP: index set `T = RangeSet(0, n_steps-1)`, bounded variables,
the `model.soc` equality-constraint list, and a single objective with its
sense.  These are exactly the components `optimize_storage_dispatch`
attaches to its `pyo.ConcreteModel()`. -/
structure LPModel where
  T : List ℕ
  vars : List VarDecl
  soc : List LinEq
  obj : LinExpr
  maximize : Bool
deriving DecidableEq, Repr

/-- An assignment is feasible for the model when it satisfies every variable
bound and every `soc` equality constraint. -/
def LPModel.Feasible (m : LPModel) (x : LPVar → ℚ) : Prop :=
  (∀ d ∈ m.vars, d.Holds x) ∧ (∀ c ∈ m.soc, c.Holds x)

instance (m : LPModel) (x : LPVar → ℚ) : Decidable (m.Feasible x) := by
  unfold LPModel.Feasible
  exact inferInstance

/-- `v` is the optimal objective value of the (maximization) model: some
feasible assignment attains it and no feasible assignment exceeds it. -/
def LPModel.IsOptimalValue (m : LPModel) (v : ℚ) : Prop :=
  (∃ x, m.Feasible x ∧ m.obj.eval x = v) ∧ ∀ x, m.Feasible x → m.obj.eval x ≤ v

/-- The `soc_rule` constraint generator of `opt_func.py` (lines 69-83):
for `t = 0`, `E[t] == soc_init + P_ch[t]*eff_ch - P_dis[t]/eff_dis`;
for `t ≥ 1`, `E[t] == E[t-1] + P_ch[t]*eff_ch - P_dis[t]/eff_dis`.
Division by `eff_dis` is recorded as the coefficient `-(1/eff_dis)`. -/
def soc_rule (storage_params : StorageParams) (t : ℕ) : LinEq :=
  if t = 0 then
    { lhs := { const := 0, terms := [(1, LPVar.E t)] }
      rhs := { const := storage_params.soc_init
               terms := [(storage_params.eff_ch, LPVar.P_ch t),
                         (-(1 / storage_params.eff_dis), LPVar.P_dis t)] } }
  else
    { lhs := { const := 0, terms := [(1, LPVar.E t)] }
      rhs := { const := 0
               terms := [(1, LPVar.E (t - 1)),
                         (storage_params.eff_ch, LPVar.P_ch t),
                         (-(1 / storage_params.eff_dis), LPVar.P_dis t)] } }

/-- The model-building part of `optimize_storage_dispatch` (lines 53-94):
`T = RangeSet(0, n_steps-1)`; `P_ch`, `P_dis` bounded by `(0, p_max)` and `E`
by `(0, capacity)`; the `soc` constraints from `soc_rule`; and the maximized
objective `sum(price[t]*P_dis[t] - price[t]*P_ch[t] for t in T)`. -/
def optimize_storage_dispatch_model (price_series : List ℚ)
    (storage_params : StorageParams) : LPModel :=
  let n_steps := price_series.length
  let T := List.range n_steps
  { T := T
    vars := T.map (fun t => ⟨LPVar.P_ch t, 0, storage_params.p_max⟩)
         ++ T.map (fun t => ⟨LPVar.P_dis t, 0, storage_params.p_max⟩)
         ++ T.map (fun t => ⟨LPVar.E t, 0, storage_params.capacity⟩)
    soc := T.map (soc_rule storage_params)
    obj := { const := 0
             terms := T.flatMap (fun t =>
               [(price_series.getD t 0, LPVar.P_dis t),
                (-(price_series.getD t 0), LPVar.P_ch t)]) }
    maximize := true }

/-- Status reported by the external LP solver (HiGHS via
`pyo.SolverFactory("appsi_highs")`), which the source treats as a black box. -/
inductive SolverStatus where
  | optimal
  | infeasible
  | unbounded
  | failure (reason : String)
deriving DecidableEq, Repr

/-- What a solver invocation produces: a status together with the variable
values it loads back into the model. -/
structure SolverResult where
  status : SolverStatus
  values : LPVar → ℚ

/-- The solve-and-return tail of `optimize_storage_dispatch` (lines 96-100):
the solver is invoked on the built model and the model is returned.  The
returned `SolverResult` of `solver.solve(model)` is discarded by the source;
the loaded variable values are what the caller can read back. -/
def optimize_storage_dispatch_solved (price_series : List ℚ)
    (storage_params : StorageParams) (solver : LPModel → SolverResult) :
    LPModel × (LPVar → ℚ) :=
  let model := optimize_storage_dispatch_model price_series storage_params
  let res := solver model
  (model, res.values)

/-- The default storage parameters of `optimize_storage_dispatch`
(lines 39-46). -/
def default_storage_params : StorageParams :=
  { capacity := 100, p_max := 50, eff_ch := 0.95, eff_dis := 0.95, soc_init := 0 }

/-- Input to `optimize_storage_dispatch`: either a pandas DataFrame (an
ordered list of named columns) or a series used directly. -/
structure DataFrame where
  cols : List (String × List ℚ)
deriving DecidableEq, Repr

/-- Column lookup by name, as in `price_df["price"]`. -/
def DataFrame.col (df : DataFrame) (name : String) : Option (List ℚ) :=
  (df.cols.find? (fun c => c.1 = name)).map (fun c => c.2)

/-- The `price_df` argument of `optimize_storage_dispatch`: a DataFrame or
anything else, which the source uses as the series directly. -/
inductive PriceInput where
  | dataFrame (df : DataFrame)
  | series (s : List ℚ)
deriving DecidableEq, Repr

/-- The input coercion of `optimize_storage_dispatch` (lines 47-51): a
DataFrame yields its positionally-first column (`price_df.iloc[:, 0]`,
`none` when there is no column, where pandas raises `IndexError`);
anything else is used as the price series directly. -/
def get_price_series : PriceInput → Option (List ℚ)
  | .dataFrame df => df.cols.head?.map (fun c => c.2)
  | .series s => some s

/-- Full `optimize_storage_dispatch` (lines 26-100): substitute the default
parameters when none are given, coerce the input to a series, build the
model, invoke the solver and return the (solved) model. -/
def optimize_storage_dispatch (price_df : PriceInput)
    (storage_params : Option StorageParams) (solver : LPModel → SolverResult) :
    Option (LPModel × (LPVar → ℚ)) :=
  let sp := storage_params.getD default_storage_params
  match get_price_series price_df with
  | none => none
  | some price_series => some (optimize_storage_dispatch_solved price_series sp solver)

/-- One row of the results DataFrame built by `extract_storage_profits`. -/
structure ScheduleRow where
  P_ch : ℚ
  P_dis : ℚ
  E : ℚ
  price : ℚ
  profit : ℚ
deriving DecidableEq, Repr

/-- `extract_storage_profits` (lines 102-124): read `P_ch[t]`, `P_dis[t]`,
`E[t]` back from the solved values for `t in range(n_steps)`, pair them with
`price[t]`, and set `profit = price*P_dis - price*P_ch`.  (The source also
accepts an unused `storage_params` argument, omitted here.) -/
def extract_storage_profits (values : LPVar → ℚ) (price_series : List ℚ) :
    List ScheduleRow :=
  (List.range price_series.length).map (fun t =>
    let p := price_series.getD t 0
    let pch := values (LPVar.P_ch t)
    let pdis := values (LPVar.P_dis t)
    { P_ch := pch, P_dis := pdis, E := values (LPVar.E t), price := p
      profit := p * pdis - p * pch })

/-- `optimization_func` (lines 126-158): require a column named "price"
(`ValueError` otherwise), overwrite the caller's `storage_params` with the
hardcoded set, run the optimization on `price_df["price"]`, extract the
schedule, and report `total_profit = results_df.profit.sum()/1000`.  It
returns the schedule; the total is the scalar the source prints. -/
def optimization_func (solver : LPModel → SolverResult) (price_df : DataFrame)
    (storage_params : Option StorageParams) :
    Except String (List ScheduleRow × ℚ) :=
  match price_df.col "price" with
  | none => Except.error "CSV must contain a column named price."
  | some price_series =>
    let sp : StorageParams :=
      { capacity := 100, p_max := 50, eff_ch := 0.95, eff_dis := 0.95, soc_init := 0 }
    match optimize_storage_dispatch (PriceInput.series price_series) (some sp) solver with
    | none => Except.error "unreachable"
    | some (_model, values) =>
      let results_df := extract_storage_profits values price_series
      let total_profit := ((results_df.map (fun r => r.profit)).sum) / 1000
      Except.ok (results_df, total_profit)

/-- Validity bounds on `StorageParams` as stated in the specification:
positive capacity and power limit, efficiencies in `(0, 1]`, and an initial
state of charge within `[0, capacity]`. -/
def ValidParams (sp : StorageParams) : Prop :=
  0 < sp.capacity ∧ 0 < sp.p_max ∧ 0 < sp.eff_ch ∧ sp.eff_ch ≤ 1 ∧
    0 < sp.eff_dis ∧ sp.eff_dis ≤ 1 ∧ 0 ≤ sp.soc_init ∧ sp.soc_init ≤ sp.capacity

instance (sp : StorageParams) : Decidable (ValidParams sp) := by
  unfold ValidParams
  exact inferInstance


/-! Helper lemmas: semantics of the built model. -/

/-- Satisfying the `soc_rule` constraint for step `t` is exactly the SOC
recurrence equation at `t`. -/
lemma soc_rule_holds_iff (sp : StorageParams) (t : ℕ) (x : LPVar → ℚ) :
    (soc_rule sp t).Holds x ↔
      x (LPVar.E t) = (if t = 0 then sp.soc_init else x (LPVar.E (t - 1)))
        + x (LPVar.P_ch t) * sp.eff_ch - x (LPVar.P_dis t) / sp.eff_dis := by
  by_cases h : t = 0 <;>
    simp only [soc_rule, h, if_true, if_false, LinEq.Holds, LinExpr.eval,
      List.map_cons, List.map_nil, List.sum_cons, List.sum_nil] <;>
    constructor <;> intro hx <;> linear_combination hx

/-- The `soc` constraint list of the built model is the image of `soc_rule`
over `range n`. -/
lemma model_soc_eq (price_series : List ℚ) (sp : StorageParams) :
    (optimize_storage_dispatch_model price_series sp).soc
      = (List.range price_series.length).map (soc_rule sp) := rfl

/-- An assignment satisfies all `soc` constraints of the built model iff the
SOC recurrence holds at every step `t < n`. -/
lemma soc_sem (price_series : List ℚ) (sp : StorageParams) (x : LPVar → ℚ) :
    (∀ c ∈ (optimize_storage_dispatch_model price_series sp).soc, c.Holds x) ↔
      ∀ t < price_series.length,
        x (LPVar.E t) = (if t = 0 then sp.soc_init else x (LPVar.E (t - 1)))
          + x (LPVar.P_ch t) * sp.eff_ch - x (LPVar.P_dis t) / sp.eff_dis := by
  rw [model_soc_eq]
  constructor
  · intro h t ht
    exact (soc_rule_holds_iff sp t x).mp
      (h _ (List.mem_map_of_mem _ (List.mem_range.mpr ht)))
  · intro h c hc
    rcases List.mem_map.mp hc with ⟨t, ht, rfl⟩
    exact (soc_rule_holds_iff sp t x).mpr (h t (List.mem_range.mp ht))

/-- Evaluating the objective terms built by `flatMap` over a list of steps. -/
lemma obj_terms_sum (p : ℕ → ℚ) (x : LPVar → ℚ) (T : List ℕ) :
    ((T.flatMap (fun t => [(p t, LPVar.P_dis t), (-(p t), LPVar.P_ch t)])).map
        (fun c => c.1 * x c.2)).sum
      = (T.map (fun t => p t * x (LPVar.P_dis t) - p t * x (LPVar.P_ch t))).sum := by
  induction T with
  | nil => simp
  | cons a T ih =>
    simp only [List.flatMap_cons, List.map_append, List.map_cons, List.map_nil,
      List.sum_append, List.sum_cons, List.sum_nil, ih]
    ring

/-- Sum of a function mapped over `List.range n` as a `Finset.range` sum. -/
lemma list_range_map_sum (n : ℕ) (f : ℕ → ℚ) :
    ((List.range n).map f).sum = ∑ t ∈ Finset.range n, f t := by
  induction n with
  | zero => simp
  | succ m ih => rw [List.range_succ, Finset.sum_range_succ, List.map_append, List.sum_append, ih]; simp

/-- The built objective evaluates to
`Σ_{t<n} price[t]*P_dis[t] - price[t]*P_ch[t]`. -/
lemma obj_eval_eq (price_series : List ℚ) (sp : StorageParams) (x : LPVar → ℚ) :
    (optimize_storage_dispatch_model price_series sp).obj.eval x
      = ∑ t ∈ Finset.range price_series.length,
          (price_series.getD t 0 * x (LPVar.P_dis t)
            - price_series.getD t 0 * x (LPVar.P_ch t)) := by
  simp only [optimize_storage_dispatch_model, LinExpr.eval, zero_add]
  rw [obj_terms_sum (fun t => price_series.getD t 0) x]
  exact list_range_map_sum price_series.length _

/-- The bound declarations present in the built model for each step `t < n`. -/
lemma mem_vars_of_lt (price_series : List ℚ) (sp : StorageParams) (t : ℕ)
    (ht : t < price_series.length) :
    (⟨LPVar.P_ch t, 0, sp.p_max⟩ : VarDecl)
        ∈ (optimize_storage_dispatch_model price_series sp).vars ∧
      (⟨LPVar.P_dis t, 0, sp.p_max⟩ : VarDecl)
        ∈ (optimize_storage_dispatch_model price_series sp).vars ∧
      (⟨LPVar.E t, 0, sp.capacity⟩ : VarDecl)
        ∈ (optimize_storage_dispatch_model price_series sp).vars := by
  simp only [optimize_storage_dispatch_model, List.mem_append, List.mem_map,
    List.mem_range]
  exact ⟨Or.inl (Or.inl ⟨t, ht, rfl⟩), Or.inl (Or.inr ⟨t, ht, rfl⟩), Or.inr ⟨t, ht, rfl⟩⟩

/-- A feasible assignment respects the physical bounds at every step. -/
lemma feasible_bounds (price_series : List ℚ) (sp : StorageParams) (x : LPVar → ℚ)
    (hf : (optimize_storage_dispatch_model price_series sp).Feasible x) :
    ∀ t < price_series.length,
      (0 ≤ x (LPVar.P_ch t) ∧ x (LPVar.P_ch t) ≤ sp.p_max) ∧
        (0 ≤ x (LPVar.P_dis t) ∧ x (LPVar.P_dis t) ≤ sp.p_max) ∧
        (0 ≤ x (LPVar.E t) ∧ x (LPVar.E t) ≤ sp.capacity) := by
  intro t ht
  obtain ⟨h1, h2, h3⟩ := mem_vars_of_lt price_series sp t ht
  have c1 := hf.1 _ h1
  have c2 := hf.1 _ h2
  have c3 := hf.1 _ h3
  exact ⟨⟨c1.1, c1.2⟩, ⟨c2.1, c2.2⟩, ⟨c3.1, c3.2⟩⟩

/-- A feasible assignment satisfies the SOC recurrence at every step. -/
lemma feasible_soc (price_series : List ℚ) (sp : StorageParams) (x : LPVar → ℚ)
    (hf : (optimize_storage_dispatch_model price_series sp).Feasible x) :
    ∀ t < price_series.length,
      x (LPVar.E t) = (if t = 0 then sp.soc_init else x (LPVar.E (t - 1)))
        + x (LPVar.P_ch t) * sp.eff_ch - x (LPVar.P_dis t) / sp.eff_dis :=
  (soc_sem price_series sp x).mp hf.2

/-- The all-zero dispatch is feasible whenever `soc_init = 0` and the bounds
are themselves nonnegative. -/
lemma zero_feasible (price_series : List ℚ) (sp : StorageParams)
    (hp : 0 ≤ sp.p_max) (hc : 0 ≤ sp.capacity) (hs : sp.soc_init = 0) :
    (optimize_storage_dispatch_model price_series sp).Feasible (fun _ => 0) := by
  constructor
  · intro d hd
    simp only [optimize_storage_dispatch_model, List.mem_append, List.mem_map,
      List.mem_range] at hd
    rcases hd with (⟨t, _, rfl⟩ | ⟨t, _, rfl⟩) | ⟨t, _, rfl⟩ <;>
      exact ⟨le_refl 0, by simpa using (by assumption : (0:ℚ) ≤ _)⟩
  · rw [soc_sem]
    intro t _
    by_cases h : t = 0 <;> simp [h, hs]

/-- Unfolded SOC recurrence summed up: the stored energy at step `t` equals
`soc_init` plus the accumulated charge/discharge flows up to `t`. -/
lemma soc_telescope (price_series : List ℚ) (sp : StorageParams) (x : LPVar → ℚ)
    (hf : (optimize_storage_dispatch_model price_series sp).Feasible x) :
    ∀ t < price_series.length,
      x (LPVar.E t) = sp.soc_init
        + ∑ k ∈ Finset.range (t + 1),
            (x (LPVar.P_ch k) * sp.eff_ch - x (LPVar.P_dis k) / sp.eff_dis) := by
  have hrec := feasible_soc price_series sp x hf
  intro t
  induction t with
  | zero =>
    intro ht
    have h0 := hrec 0 ht
    rw [Finset.sum_range_one]
    simp only [if_true, reduceIte] at h0
    linarith [h0]
  | succ m ih =>
    intro ht
    have h1 := hrec (m + 1) ht
    have h2 := ih (Nat.lt_of_succ_lt ht)
    simp only [Nat.succ_ne_zero, if_false, Nat.add_sub_cancel] at h1
    rw [Finset.sum_range_succ]
    linarith [h1, h2]

/-- With zero initial charge, efficiencies in `(0, 1]` and a constant
nonnegative price, no feasible dispatch attains a positive objective. -/
lemma const_price_obj_nonpos (n : ℕ) (c : ℚ) (sp : StorageParams) (x : LPVar → ℚ)
    (hech1 : sp.eff_ch ≤ 1)
    (hedis0 : 0 < sp.eff_dis) (hedis1 : sp.eff_dis ≤ 1)
    (hsoc : sp.soc_init = 0) (hc : 0 ≤ c)
    (hf : (optimize_storage_dispatch_model (List.replicate n c) sp).Feasible x) :
    (optimize_storage_dispatch_model (List.replicate n c) sp).obj.eval x ≤ 0 := by
  have hlen : (List.replicate n c).length = n := List.length_replicate n c
  have hval : ∀ t ∈ Finset.range n,
      (List.replicate n c).getD t 0 * x (LPVar.P_dis t)
          - (List.replicate n c).getD t 0 * x (LPVar.P_ch t)
        = c * x (LPVar.P_dis t) - c * x (LPVar.P_ch t) := by
    intro t ht
    have hg : (List.replicate n c).getD t 0 = c := by
      simp [List.getD, List.getElem?_replicate, Finset.mem_range.mp ht]
    rw [hg]
  have hobj : (optimize_storage_dispatch_model (List.replicate n c) sp).obj.eval x
      = c * (∑ k ∈ Finset.range n, x (LPVar.P_dis k))
        - c * (∑ k ∈ Finset.range n, x (LPVar.P_ch k)) := by
    rw [obj_eval_eq, hlen, Finset.sum_congr rfl hval, Finset.sum_sub_distrib,
      ← Finset.mul_sum, ← Finset.mul_sum]
  rcases Nat.eq_zero_or_pos n with hn | hn
  · rw [hobj, hn]
    simp
  · have hbounds := feasible_bounds (List.replicate n c) sp x hf
    rw [hlen] at hbounds
    have hB0 : 0 ≤ ∑ k ∈ Finset.range n, x (LPVar.P_ch k) :=
      Finset.sum_nonneg fun k hk => (hbounds k (Finset.mem_range.mp hk)).1.1
    have htel := soc_telescope (List.replicate n c) sp x hf (n - 1) (by rw [hlen]; omega)
    have hE0 : 0 ≤ x (LPVar.E (n - 1)) := (hbounds (n - 1) (by omega)).2.2.1
    have hn1 : n - 1 + 1 = n := by omega
    rw [hsoc, hn1, zero_add, Finset.sum_sub_distrib, ← Finset.sum_mul,
      ← Finset.sum_div] at htel
    have h1 : (∑ k ∈ Finset.range n, x (LPVar.P_dis k)) / sp.eff_dis
        ≤ (∑ k ∈ Finset.range n, x (LPVar.P_ch k)) * sp.eff_ch := by
      linarith [hE0, htel]
    have hA := (div_le_iff₀ hedis0).mp h1
    have hee : sp.eff_ch * sp.eff_dis ≤ 1 :=
      le_trans (mul_le_of_le_one_left hedis0.le hech1) hedis1
    have h3 : (∑ k ∈ Finset.range n, x (LPVar.P_ch k)) * (sp.eff_ch * sp.eff_dis)
        ≤ (∑ k ∈ Finset.range n, x (LPVar.P_ch k)) * 1 :=
      mul_le_mul_of_nonneg_left hee hB0
    have hAB : (∑ k ∈ Finset.range n, x (LPVar.P_dis k))
        ≤ ∑ k ∈ Finset.range n, x (LPVar.P_ch k) := by nlinarith [hA, h3]
    rw [hobj]
    nlinarith [mul_nonneg hc (sub_nonneg.mpr hAB)]

/-! Claim theorems. -/

/-- C1: for every price series of length `N ≥ 1` and every `StorageParams`,
the built LP has exactly `N` equality constraints, which hold for an
assignment iff `E[0] = soc_init + P_ch[0]*eff_ch - P_dis[0]/eff_dis` and
`E[t] = E[t-1] + P_ch[t]*eff_ch - P_dis[t]/eff_dis` for every `1 ≤ t < N`;
the `t`-th constraint only involves variables of steps `t` and `t-1`, and
the constraint list is exactly the image of `soc_rule` (so no other
constraint relates different time steps; the remaining model components are
single-variable bound declarations). -/
theorem C1_soc_constraints (price_series : List ℚ) (sp : StorageParams)
    (hN : 1 ≤ price_series.length) :
    ((optimize_storage_dispatch_model price_series sp).soc.length
        = price_series.length) ∧
    (∀ x : LPVar → ℚ,
      (∀ c ∈ (optimize_storage_dispatch_model price_series sp).soc, c.Holds x) ↔
        (x (LPVar.E 0) = sp.soc_init + x (LPVar.P_ch 0) * sp.eff_ch
            - x (LPVar.P_dis 0) / sp.eff_dis) ∧
        (∀ t, 1 ≤ t → t < price_series.length →
          x (LPVar.E t) = x (LPVar.E (t - 1)) + x (LPVar.P_ch t) * sp.eff_ch
            - x (LPVar.P_dis t) / sp.eff_dis)) ∧
    (∀ t < price_series.length, ∀ v ∈ (soc_rule sp t).varsOf,
        v.time = t ∨ v.time = t - 1) ∧
    ((optimize_storage_dispatch_model price_series sp).soc
        = (List.range price_series.length).map (soc_rule sp)) := by
  refine ⟨?_, ?_, ?_, model_soc_eq price_series sp⟩
  · rw [model_soc_eq, List.length_map, List.length_range]
  · intro x
    rw [soc_sem]
    constructor
    · intro h
      refine ⟨?_, fun t h1 h2 => ?_⟩
      · have h0 := h 0 hN
        simpa using h0
      · have ht := h t h2
        rwa [if_neg (by omega)] at ht
    · intro h t ht
      by_cases h0 : t = 0
      · subst h0
        simpa using h.1
      · rw [if_neg h0]
        exact h.2 t (by omega) ht
  · intro t _ v hv
    by_cases h0 : t = 0
    · subst h0
      simp [soc_rule, LinEq.varsOf, LinExpr.varsOf] at hv
      rcases hv with hv | hv | hv <;> subst hv <;> simp [LPVar.time]
    · simp [soc_rule, h0, LinEq.varsOf, LinExpr.varsOf] at hv
      rcases hv with hv | hv | hv | hv <;> subst hv <;> simp [LPVar.time]

/-- C1 witness: the model built from the one-step series `[10]` with the
default parameters has exactly one SOC constraint. -/
theorem C1_soc_constraints_witness :
    (optimize_storage_dispatch_model [10] default_storage_params).soc.length = 1 :=
  (C1_soc_constraints [10] default_storage_params (by norm_num)).1

/-- C2: for every price series, the built LP is a maximization of the single
linear objective `Σ_t price[t]*P_dis[t] - price[t]*P_ch[t]`. -/
theorem C2_objective (price_series : List ℚ) (sp : StorageParams) :
    (optimize_storage_dispatch_model price_series sp).maximize = true ∧
    ∀ x : LPVar → ℚ,
      (optimize_storage_dispatch_model price_series sp).obj.eval x
        = ∑ t ∈ Finset.range price_series.length,
            (price_series.getD t 0 * x (LPVar.P_dis t)
              - price_series.getD t 0 * x (LPVar.P_ch t)) :=
  ⟨rfl, obj_eval_eq price_series sp⟩

/-- C3: the built LP declares the domains `[0, p_max]` for `P_ch[t]` and
`P_dis[t]` and `[0, capacity]` for `E[t]` at every step, and consequently
every feasible assignment satisfies those bounds. -/
theorem C3_bounds (price_series : List ℚ) (sp : StorageParams) (x : LPVar → ℚ)
    (hx : (optimize_storage_dispatch_model price_series sp).Feasible x) :
    ∀ t < price_series.length,
      ((⟨LPVar.P_ch t, 0, sp.p_max⟩ : VarDecl)
          ∈ (optimize_storage_dispatch_model price_series sp).vars ∧
        (⟨LPVar.P_dis t, 0, sp.p_max⟩ : VarDecl)
          ∈ (optimize_storage_dispatch_model price_series sp).vars ∧
        (⟨LPVar.E t, 0, sp.capacity⟩ : VarDecl)
          ∈ (optimize_storage_dispatch_model price_series sp).vars) ∧
      (0 ≤ x (LPVar.P_ch t) ∧ x (LPVar.P_ch t) ≤ sp.p_max) ∧
      (0 ≤ x (LPVar.P_dis t) ∧ x (LPVar.P_dis t) ≤ sp.p_max) ∧
      (0 ≤ x (LPVar.E t) ∧ x (LPVar.E t) ≤ sp.capacity) := by
  intro t ht
  exact ⟨mem_vars_of_lt price_series sp t ht, feasible_bounds price_series sp x hx t ht⟩

/-- C3 witness: the zero dispatch is feasible for the default parameters on
the series `[10]` and satisfies the declared bounds at step 0. -/
theorem C3_bounds_witness :
    ((⟨LPVar.P_ch 0, 0, default_storage_params.p_max⟩ : VarDecl)
        ∈ (optimize_storage_dispatch_model [10] default_storage_params).vars ∧
      (⟨LPVar.P_dis 0, 0, default_storage_params.p_max⟩ : VarDecl)
        ∈ (optimize_storage_dispatch_model [10] default_storage_params).vars ∧
      (⟨LPVar.E 0, 0, default_storage_params.capacity⟩ : VarDecl)
        ∈ (optimize_storage_dispatch_model [10] default_storage_params).vars) ∧
    (0 ≤ (fun _ => (0:ℚ)) (LPVar.P_ch 0)
      ∧ (fun _ => (0:ℚ)) (LPVar.P_ch 0) ≤ default_storage_params.p_max) ∧
    (0 ≤ (fun _ => (0:ℚ)) (LPVar.P_dis 0)
      ∧ (fun _ => (0:ℚ)) (LPVar.P_dis 0) ≤ default_storage_params.p_max) ∧
    (0 ≤ (fun _ => (0:ℚ)) (LPVar.E 0)
      ∧ (fun _ => (0:ℚ)) (LPVar.E 0) ≤ default_storage_params.capacity) :=
  C3_bounds [10] default_storage_params (fun _ => 0)
    (zero_feasible [10] default_storage_params
      (by norm_num [default_storage_params]) (by norm_num [default_storage_params]) rfl)
    0 (by norm_num)

/-- C4 counterexample: `soc_init = 200 > 100 = capacity` violates the
parameter bounds, yet `optimize_storage_dispatch` raises nothing: it returns
the built model after invoking the solver, exactly as for valid parameters.
No `InvalidParameterError` exists in the source. -/
theorem C4_counterexample :
    ¬ ValidParams ⟨100, 50, 0.95, 0.95, 200⟩ ∧
    (⟨100, 50, 0.95, 0.95, 200⟩ : StorageParams).capacity
      < (⟨100, 50, 0.95, 0.95, 200⟩ : StorageParams).soc_init ∧
    optimize_storage_dispatch (PriceInput.series [10])
        (some ⟨100, 50, 0.95, 0.95, 200⟩)
        (fun _ => ⟨SolverStatus.optimal, fun _ => 0⟩)
      = some (optimize_storage_dispatch_solved [10] ⟨100, 50, 0.95, 0.95, 200⟩
          (fun _ => ⟨SolverStatus.optimal, fun _ => 0⟩)) := by
  refine ⟨fun h => ?_, by norm_num, rfl⟩
  have h8 := h.2.2.2.2.2.2.2
  norm_num at h8

/-- C4 amended: `optimize_storage_dispatch` performs no parameter
validation: for every `StorageParams`, including any violating the field
bounds, model building succeeds without raising and the solver is invoked on
the resulting LP. -/
theorem C4_amended (price_series : List ℚ) (sp : StorageParams)
    (solver : LPModel → SolverResult) :
    optimize_storage_dispatch (PriceInput.series price_series) (some sp) solver
      = some (optimize_storage_dispatch_solved price_series sp solver) := rfl

/-- C5 counterexample: a solver that reports `failure "timeout"` and one
that reports `optimal` (loading the same values) yield identical results
from `optimize_storage_dispatch`: the failure is not surfaced in any form. -/
theorem C5_counterexample :
    optimize_storage_dispatch (PriceInput.series [10]) none
        (fun _ => ⟨SolverStatus.failure "timeout", fun _ => 0⟩)
      = optimize_storage_dispatch (PriceInput.series [10]) none
        (fun _ => ⟨SolverStatus.optimal, fun _ => 0⟩) := rfl

/-- C5 amended: `optimize_storage_dispatch` ignores the result object of
`solver.solve(model)` entirely: its output depends only on the values the
solver loads, never on the reported status, so a failing status is
indistinguishable from an optimal one to the caller.  (Any surfacing of a
solver failure can only come from an exception inside the external library,
not from this code.) -/
theorem C5_amended (price_series : List ℚ) (sp : Option StorageParams)
    (st1 st2 : SolverStatus) (vals : LPVar → ℚ) :
    optimize_storage_dispatch (PriceInput.series price_series) sp
        (fun _ => ⟨st1, vals⟩)
      = optimize_storage_dispatch (PriceInput.series price_series) sp
        (fun _ => ⟨st2, vals⟩) := rfl

/-- C8: omitting `storage_params` makes `optimize_storage_dispatch` use the
defaults `capacity=100, p_max=50, eff_ch=0.95, eff_dis=0.95, soc_init=0`. -/
theorem C8_defaults (price_df : PriceInput) (solver : LPModel → SolverResult) :
    optimize_storage_dispatch price_df none solver
      = optimize_storage_dispatch price_df
          (some { capacity := 100, p_max := 50, eff_ch := 0.95, eff_dis := 0.95,
                  soc_init := 0 }) solver ∧
    default_storage_params
      = { capacity := 100, p_max := 50, eff_ch := 0.95, eff_dis := 0.95,
          soc_init := 0 } :=
  ⟨rfl, rfl⟩

/-- C9: `optimization_func` unconditionally overwrites the caller-supplied
`storage_params` with the hardcoded set before optimizing, so any two values
of the argument produce identical results. -/
theorem C9_params_ignored (solver : LPModel → SolverResult)
    (price_df : DataFrame) (sp1 sp2 : Option StorageParams) :
    optimization_func solver price_df sp1 = optimization_func solver price_df sp2 :=
  rfl

/-- C10: a DataFrame input to `optimize_storage_dispatch` contributes its
positionally-first column as the price series, whatever that column's name;
a non-DataFrame input is used as the price series directly. -/
theorem C10_first_column (c : String × List ℚ) (rest : List (String × List ℚ))
    (s : List ℚ) (sp : Option StorageParams) (solver : LPModel → SolverResult) :
    optimize_storage_dispatch (PriceInput.dataFrame ⟨c :: rest⟩) sp solver
      = some (optimize_storage_dispatch_solved c.2 (sp.getD default_storage_params) solver) ∧
    optimize_storage_dispatch (PriceInput.series s) sp solver
      = some (optimize_storage_dispatch_solved s (sp.getD default_storage_params) solver) :=
  ⟨rfl, rfl⟩

/-- Dispatch on a plain series always returns the solved model (shared
reduction fact used below). -/
lemma dispatch_series_eq (ps : List ℚ) (sp : StorageParams)
    (solver : LPModel → SolverResult) :
    optimize_storage_dispatch (PriceInput.series ps) (some sp) solver
      = some (optimize_storage_dispatch_solved ps sp solver) := rfl

/-- C6 counterexample: on the one-step price series `[10]` with the solver
loading `P_dis[0] = 50`, the schedule's profits sum to `500`, but the total
profit reported by `optimization_func` is `500/1000 = 1/2`: the pipeline
does apply a scaling (k€ conversion), contradicting the claim. -/
theorem C6_counterexample :
    optimization_func
        (fun _ => ⟨SolverStatus.optimal,
          fun v => match v with | LPVar.P_dis 0 => (50:ℚ) | _ => 0⟩)
        ⟨[("price", [10])]⟩ none
      = Except.ok ([⟨0, 50, 0, 10, 500⟩], 1/2) ∧
    (([(⟨0, 50, 0, 10, 500⟩ : ScheduleRow)]).map (fun r => r.profit)).sum = 500 ∧
    (1:ℚ)/2 ≠ 500 := by
  refine ⟨?_, by norm_num, by norm_num⟩
  norm_num [optimization_func, DataFrame.col, optimize_storage_dispatch,
    get_price_series, optimize_storage_dispatch_solved, extract_storage_profits,
    List.range_succ, List.find?]

/-- C6 amended: each extracted row satisfies
`profit = price * (P_dis - P_ch)`, and the total profit reported by
`optimization_func` is `(Σ_t profit[t]) / 1000` (the source converts to k€),
not the bare sum. -/
theorem C6_profit (solver : LPModel → SolverResult) (price_df : DataFrame)
    (sp : Option StorageParams) (rows : List ScheduleRow) (total : ℚ)
    (h : optimization_func solver price_df sp = Except.ok (rows, total)) :
    (∀ r ∈ rows, r.profit = r.price * (r.P_dis - r.P_ch)) ∧
    total = ((rows.map (fun r => r.profit)).sum) / 1000 := by
  unfold optimization_func at h
  cases hcol : price_df.col "price" with
  | none =>
    rw [hcol] at h
    simp at h
  | some ps =>
    rw [hcol] at h
    dsimp only at h
    rw [dispatch_series_eq] at h
    dsimp only at h
    simp only [Except.ok.injEq, Prod.mk.injEq] at h
    obtain ⟨hrows, htotal⟩ := h
    subst hrows
    refine ⟨?_, htotal.symm⟩
    intro r hr
    rcases List.mem_map.mp hr with ⟨t, _, rfl⟩
    show (fun t => _) t = _
    simp only [extract_storage_profits]
    ring

/-- C6 witness: the amended claim evaluated on the concrete run of the
counterexample input. -/
theorem C6_profit_witness :
    (∀ r ∈ [(⟨0, 50, 0, 10, 500⟩ : ScheduleRow)],
        r.profit = r.price * (r.P_dis - r.P_ch)) ∧
    (1:ℚ)/2 = ((([(⟨0, 50, 0, 10, 500⟩ : ScheduleRow)]).map
        (fun r => r.profit)).sum) / 1000 :=
  C6_profit
    (fun _ => ⟨SolverStatus.optimal,
      fun v => match v with | LPVar.P_dis 0 => (50:ℚ) | _ => 0⟩)
    ⟨[("price", [10])]⟩ none [⟨0, 50, 0, 10, 500⟩] (1/2)
    (by norm_num [optimization_func, DataFrame.col, optimize_storage_dispatch,
      get_price_series, optimize_storage_dispatch_solved, extract_storage_profits,
      List.range_succ, List.find?])

/-- C7 counterexample: `capacity=100, p_max=50, eff_ch=eff_dis=1,
soc_init=50` is a valid parameter set, and on the constant price series
`[10]` the dispatch `P_dis[0]=50, E[0]=0` is feasible with objective `500`:
discharging the initial stored energy earns a positive profit, so the
optimal objective value is not `0`. -/
theorem C7_counterexample :
    ValidParams ⟨100, 50, 1, 1, 50⟩ ∧
    ¬ (optimize_storage_dispatch_model (List.replicate 1 10)
        ⟨100, 50, 1, 1, 50⟩).IsOptimalValue 0 := by
  refine ⟨by norm_num [ValidParams], fun h => ?_⟩
  have hfeas : (optimize_storage_dispatch_model (List.replicate 1 10)
      ⟨100, 50, 1, 1, 50⟩).Feasible
        (fun v => match v with | LPVar.P_dis 0 => (50:ℚ) | _ => 0) := by
    simp [LPModel.Feasible, optimize_storage_dispatch_model, soc_rule,
      VarDecl.Holds, LinEq.Holds, LinExpr.eval, List.range_succ, List.replicate]
  have hub := h.2 _ hfeas
  have heval : (optimize_storage_dispatch_model (List.replicate 1 10)
      ⟨100, 50, 1, 1, 50⟩).obj.eval
        (fun v => match v with | LPVar.P_dis 0 => (50:ℚ) | _ => 0) = 500 := by
    simp [optimize_storage_dispatch_model, LinExpr.eval, List.range_succ,
      List.replicate]
    norm_num
  rw [heval] at hub
  norm_num at hub

/-- C7 amended: for every valid `StorageParams` whose initial state of
charge is zero and every constant nonnegative price sequence, the optimal
objective value of the built LP is exactly `0`.  (The original claim fails
when `soc_init > 0` — discharging initial energy at a positive price is
profitable — and when the constant price is negative — being paid to charge
is profitable.) -/
theorem C7_const_price_zero (n : ℕ) (c : ℚ) (sp : StorageParams)
    (hv : ValidParams sp) (hsoc : sp.soc_init = 0) (hc : 0 ≤ c) :
    (optimize_storage_dispatch_model (List.replicate n c) sp).IsOptimalValue 0 := by
  obtain ⟨hcap, hp, he1, he2, he3, he4, _, _⟩ := hv
  refine ⟨⟨fun _ => 0, zero_feasible _ sp hp.le hcap.le hsoc, ?_⟩, ?_⟩
  · rw [obj_eval_eq]
    simp
  · intro x hx
    exact const_price_obj_nonpos n c sp x he2 he3 he4 hsoc hc hx

/-- C7 witness: with the default parameters (whose `soc_init` is `0`) and
the constant two-step price series `[7, 7]`, the optimal objective is `0`. -/
theorem C7_const_price_zero_witness :
    (optimize_storage_dispatch_model (List.replicate 2 7)
        default_storage_params).IsOptimalValue 0 :=
  C7_const_price_zero 2 7 default_storage_params
    (by norm_num [ValidParams, default_storage_params]) rfl (by norm_num)
